import Mathlib

/-!
# FitFlow static/app.js — shallow embedding and verification

The development embeds the browser-side utility layer `src/static/app.js`:

* `apiRequest` (the request gateway) together with `showAlert` (the notification sink),
* `formatDate`,
* the document-wide click listener that closes a modal,
* `setActiveNavLink`.

JavaScript values that the program can observe are JSON values plus `undefined`; the latter is
`none` in `Option Json`.  Platform services (the network, the host time zone, the URL parser) are
parameters of the embedded functions.  Strings are Lean strings (sequences of Unicode scalar
values); JSON numbers are integers, fractional numerals are outside the model.
-/

namespace FitFlow

/-! ## JavaScript values -/

/-- JSON values, as produced by `response.json()` and as written in object literals. An object is
its list of members in source order; on a repeated name the last member wins, both for a parsed
JSON text and for an object literal read as a sequence of property definitions. -/
inductive Json where
  | null : Json
  | bool (b : Bool) : Json
  | num (n : Int) : Json
  | str (s : String) : Json
  | arr (items : List Json) : Json
  | obj (members : List (String × Json)) : Json

/-- A JavaScript value: a JSON value, or `undefined` (`none`). -/
abbrev JsVal := Option Json

/-- A thrown JavaScript error object: its `name` and its `message`. -/
structure JsError where
  name : String
  message : String
deriving DecidableEq, Repr

/-- The effect of `new Error(message)`. -/
def JsError.mkError (message : String) : JsError := ⟨"Error", message⟩

/-- The `TypeError` raised by the engine; the message text is engine specific. -/
def JsError.typeError (message : String) : JsError := ⟨"TypeError", message⟩

/-- Own-property lookup in a member list: the last member with the given name. -/
def lookupMember (members : List (String × Json)) (key : String) : JsVal :=
  members.foldl (fun acc p => if p.1 = key then some p.2 else acc) none

/-- Whether a value is an object that has an own property `key`. -/
def hasField (v : JsVal) (key : String) : Bool :=
  match v with
  | some (Json.obj members) => members.any (fun p => decide (p.1 = key))
  | _ => false

/-- Property read `v.key` for the names the program reads (`headers`, `message`, `error`), none of
which is defined on a built-in prototype: reading from `undefined` or `null` throws a `TypeError`,
an object yields its own property or `undefined`, every other value yields `undefined`. -/
def getProp (v : JsVal) (key : String) : Except JsError JsVal :=
  match v with
  | none => .error (JsError.typeError ("Cannot read properties of undefined (reading " ++ key ++ ")"))
  | some Json.null => .error (JsError.typeError ("Cannot read properties of null (reading " ++ key ++ ")"))
  | some (Json.obj members) => .ok (lookupMember members key)
  | some _ => .ok none

/-- Optional chaining `v?.key`: `undefined` when `v` is `undefined` or `null`. -/
def getPropOpt (v : JsVal) (key : String) : JsVal :=
  match v with
  | some (Json.obj members) => lookupMember members key
  | _ => none

/-- JavaScript truthiness (`ToBoolean`). -/
def truthy (v : JsVal) : Bool :=
  match v with
  | none => false
  | some Json.null => false
  | some (Json.bool b) => b
  | some (Json.num n) => decide (n ≠ 0)
  | some (Json.str s) => decide (s ≠ "")
  | some (Json.arr _) => true
  | some (Json.obj _) => true

/-- Index-keyed members of a list, as the own properties of an array or of a string object. -/
def indexMembers (items : List Json) : List (String × Json) :=
  (List.range items.length).zip items |>.map (fun p => (toString p.1, p.2))

/-- The own enumerable properties copied by an object spread `...v`: nothing for `undefined`,
`null`, booleans and numbers; the members of an object; the indexed elements of an array or of a
string. -/
def spreadMembers (v : JsVal) : List (String × Json) :=
  match v with
  | some (Json.obj members) => members
  | some (Json.arr items) => indexMembers items
  | some (Json.str s) => indexMembers (s.data.map (fun c => Json.str (String.singleton c)))
  | _ => []

/-- Joins strings with a separator, as `Array.prototype.join`. -/
def joinWith (sep : String) : List String → String
  | [] => ""
  | [s] => s
  | s :: rest => s ++ sep ++ joinWith sep rest

mutual
/-- The abstract operation `ToString` on a JSON value. A plain object renders as
`[object Object]`, unless it has an own `toString` member: a JSON value is never callable, and
`Object.prototype.valueOf` returns the object itself, so the conversion throws. An array renders
as its elements joined by commas, `null` elements rendering as the empty string. -/
def jsToString : Json → Except JsError String
  | Json.null => .ok "null"
  | Json.bool true => .ok "true"
  | Json.bool false => .ok "false"
  | Json.num n => .ok (toString n)
  | Json.str s => .ok s
  | Json.arr items => (jsToStringItems items).map (joinWith ",")
  | Json.obj members =>
      if members.any (fun p => decide (p.1 = "toString")) then
        .error (JsError.typeError "Cannot convert object to primitive value")
      else .ok "[object Object]"
/-- The renderings of the elements of an array for `join`. -/
def jsToStringItems : List Json → Except JsError (List String)
  | [] => .ok []
  | Json.null :: rest => (jsToStringItems rest).map (fun l => "" :: l)
  | item :: rest =>
      match jsToString item with
      | .error e => .error e
      | .ok s => (jsToStringItems rest).map (fun l => s :: l)
end

/-- The search `haystack.includes(needle)` on character lists. -/
def includesChars : List Char → List Char → Bool
  | [], needle => needle.isEmpty
  | c :: cs, needle => needle.isPrefixOf (c :: cs) || includesChars cs needle

/-- The method `String.prototype.includes`. -/
def jsIncludes (haystack needle : String) : Bool :=
  includesChars haystack.data needle.data

/-! ## The page, the network and the observable effects -/

/-- An element created by the program: tag, `className` and `textContent`. -/
structure Element where
  tagName : String
  className : String
  textContent : String
deriving DecidableEq, Repr

/-- A pending `setTimeout`: after `delay` milliseconds the element is removed. -/
structure Timer where
  delay : Nat
  removes : Element
deriving DecidableEq, Repr

/-- The part of the document that `showAlert` touches: the children of the first element matching
`.container` (`none` when `document.querySelector` finds no such element) and the pending
timers. -/
structure Page where
  container : Option (List Element)
  timers : List Timer
deriving DecidableEq, Repr

/-- A settled `fetch` response: `headers.get(content-type)` (`none` for `null`), the status code,
and what `json()` settles to (the parsed body, or the error of a body that does not parse). -/
structure Response where
  contentType : Option String
  status : Nat
  body : Except JsError Json

/-- The getter `response.ok`: the status is in the range 200 to 299. -/
def Response.ok (r : Response) : Bool := decide (200 ≤ r.status) && decide (r.status ≤ 299)

/-- The network: what `fetch(url, init)` settles to, a response or a thrown transport fault. -/
abbrev Network := String → Json → Except JsError Response

/-- Everything `apiRequest` can change or emit: the page, the diagnostic console, the network
calls issued (url and init argument) and the number of `json()` body reads. -/
structure World where
  page : Page
  console : List (String × JsError)
  requests : List (String × Json)
  bodyReads : Nat

/-! ## showAlert -/

/-- Embeds `showAlert(message, type = 'info')`: builds a `div` with class `alert alert-<type>`
and the message as text, inserts it before the first child of the container, and schedules its
removal after 5000 ms. With no container, `container.insertBefore` throws and nothing is
inserted or scheduled. -/
def showAlert (message : String) (type : Option String) (p : Page) : Except JsError Page :=
  let alertDiv : Element := ⟨"div", "alert alert-" ++ type.getD "info", message⟩
  match p.container with
  | none => .error (JsError.typeError "Cannot read properties of null (reading insertBefore)")
  | some children =>
      .ok { container := some (alertDiv :: children), timers := p.timers ++ [⟨5000, alertDiv⟩] }

/-! ## apiRequest -/

/-- The constant `API_BASE_URL`. -/
def API_BASE_URL : String := ""

/-- The object literal passed to `fetch` as its second argument:
`{ headers: { Content-Type, Cache-Control, ...options.headers }, ...options }`. The members are
listed in definition order, so a later member of the same name (one spread from `options`)
replaces an earlier one. -/
def requestInit (options : Json) : Except JsError Json :=
  match getProp (some options) "headers" with
  | .error e => .error e
  | .ok callerHeaders =>
      let headers := Json.obj
        ([("Content-Type", Json.str "application/json"), ("Cache-Control", Json.str "no-cache")]
          ++ spreadMembers callerHeaders)
      .ok (Json.obj ([("headers", headers)] ++ spreadMembers (some options)))

/-- The outcome of `throw new Error(v)`: the error whose message is `ToString(v)` (the empty
message for `undefined`), or the `TypeError` of a failing conversion. -/
def throwNewError (v : JsVal) : JsError :=
  match v with
  | none => JsError.mkError ""
  | some j =>
      match jsToString j with
      | .ok s => JsError.mkError s
      | .error e => e

/-- The generic fallback message of a failing status. -/
def fallbackMessage : String := "Error en la petición"

/-- What line 24 throws for the parsed body `error` of a failing status:
`throw new Error(error.message || error.error?.message || fallbackMessage)`. -/
def failingStatusError (error : Json) : JsError :=
  match getProp (some error) "message" with
  | .error e => e
  | .ok message =>
      if truthy message then throwNewError message
      else
        match getProp (some error) "error" with
        | .error e => e
        | .ok inner =>
            let nested := getPropOpt inner "message"
            if truthy nested then throwNewError nested
            else throwNewError (some (Json.str fallbackMessage))

/-- The message of the error thrown for a response that is not JSON. -/
def nonJsonMessage (url : String) : String :=
  "El servidor no devolvió JSON para " ++ url ++ ". Verifique que la ruta de la API sea correcta."

/-- The test `!contentType || !contentType.includes('application/json')` of line 18. -/
def notJson (contentType : Option String) : Bool :=
  match contentType with
  | none => true
  | some ct => decide (ct = "") || !(jsIncludes ct "application/json")

/-- Line 7: the call `fetch(API_BASE_URL + url, init)`. Building the argument can throw (a
`null` options value); the call is recorded in the world and settles as the network says. -/
def issueFetch (net : Network) (url : String) (options : JsVal) (w : World) :
    Except JsError Response × World :=
  match requestInit (options.getD (Json.obj [])) with
  | .error e => (.error e, w)
  | .ok init =>
      (net (API_BASE_URL ++ url) init,
        { w with requests := w.requests ++ [(API_BASE_URL ++ url, init)] })

/-- The `try` block of `apiRequest` (lines 7 to 27): the value returned or the error thrown,
with the world as it stands at that point. -/
def apiRequestTry (net : Network) (url : String) (options : JsVal) (w : World) :
    Except JsError Json × World :=
  match issueFetch net url options w with
  | (.error e, w1) => (.error e, w1)
  | (.ok response, w1) =>
      if notJson response.contentType then
        (.error (JsError.mkError (nonJsonMessage url)), w1)
      else if !response.ok then
        let w2 := { w1 with bodyReads := w1.bodyReads + 1 }
        match response.body with
        | .error e => (.error e, w2)
        | .ok error => (.error (failingStatusError error), w2)
      else
        let w2 := { w1 with bodyReads := w1.bodyReads + 1 }
        match response.body with
        | .error e => (.error e, w2)
        | .ok value => (.ok value, w2)

/-- Embeds `apiRequest(url, options)`, an absent `options` being the empty object: the `try`
block, and on a thrown error the `catch` block, which logs to the console, calls `showAlert(error.message, 'error')` and rethrows. An
error thrown by `showAlert` itself leaves the `catch` block in place of the original one. -/
def apiRequest (net : Network) (url : String) (options : JsVal) (w : World) :
    Except JsError Json × World :=
  match apiRequestTry net url options w with
  | (.ok value, w1) => (.ok value, w1)
  | (.error error, w1) =>
      let w2 := { w1 with console := w1.console ++ [("Error en API:", error)] }
      match showAlert error.message (some "error") w2.page with
      | .error e => (.error e, w2)
      | .ok page => (.error error, { w2 with page := page })

/-! ## formatDate -/

/-- Milliseconds per day. -/
def msPerDay : Int := 86400000

/-- Day number, counted from 1 January 1970, of a date of the proleptic Gregorian calendar: the
operation `MakeDay` of ECMAScript. The division is the flooring one. -/
def daysFromCivil (year month day : Int) : Int :=
  let y := if month ≤ 2 then year - 1 else year
  let era := y / 400
  let yoe := y - era * 400
  let mp := (month + 9) % 12
  let doy := (153 * mp + 2) / 5 + day - 1
  let doe := yoe * 365 + yoe / 4 - yoe / 100 + doy
  era * 146097 + doe - 719468

/-- Year, month and day of the month of a day number: `YearFromTime`, `MonthFromTime` and
`DateFromTime` of ECMAScript, the month counted from 1. -/
def civilFromDays (dayNumber : Int) : Int × Int × Int :=
  let z := dayNumber + 719468
  let era := z / 146097
  let doe := z - era * 146097
  let yoe := (doe - doe / 1460 + doe / 36524 - doe / 146096) / 365
  let doy := doe - (365 * yoe + yoe / 4 - yoe / 100)
  let mp := (5 * doy + 2) / 153
  let day := doy - (153 * mp + 2) / 5 + 1
  let month := if mp < 10 then mp + 3 else mp - 9
  let year := yoe + era * 400
  (if month ≤ 2 then year + 1 else year, month, day)

/-- Number of days of a month of the Gregorian calendar. -/
def daysInMonth (year month : Int) : Int :=
  if month = 2 then
    (if year % 4 = 0 ∧ (year % 100 ≠ 0 ∨ year % 400 = 0) then 29 else 28)
  else if month = 4 ∨ month = 6 ∨ month = 9 ∨ month = 11 then 30
  else 31

/-- Value of a decimal digit character. -/
def digitValue (c : Char) : Option Int :=
  if c.isDigit then some ((c.toNat : Int) - 48) else none

/-- The time value of `new Date(s)` for a date-only string `YYYY-MM-DD` of the ECMAScript date
time string format, which denotes midnight UTC of that day. Strings of any other form, and
day or month numbers out of range (whose treatment is left to the implementation), are outside
the model: `none`. -/
def dateParse (s : String) : Option Int :=
  match s.data with
  | [y1, y2, y3, y4, '-', m1, m2, '-', d1, d2] =>
      match digitValue y1, digitValue y2, digitValue y3, digitValue y4,
        digitValue m1, digitValue m2, digitValue d1, digitValue d2 with
      | some a, some b, some c, some d, some e, some f, some g, some h =>
          let year := 1000 * a + 100 * b + 10 * c + d
          let month := 10 * e + f
          let day := 10 * g + h
          if 1 ≤ month ∧ month ≤ 12 ∧ 1 ≤ day ∧ day ≤ daysInMonth year month then
            some (daysFromCivil year month day * msPerDay)
          else none
      | _, _, _, _, _, _, _, _ => none
  | _ => none

/-- Two-digit rendering of a day or month number. -/
def pad2 (n : Int) : String :=
  if n < 10 then "0" ++ toString n else toString n

/-- The call `date.toLocaleDateString('es-AR', ...)` with numeric year and two-digit month and
day: the day/month/year of the local time `t + tza t`, where `tza t` is the offset in
milliseconds of the host time zone from UTC at the instant `t`. -/
def toLocaleDateStringEsAR (tza : Int → Int) (t : Int) : String :=
  let datePart := civilFromDays ((t + tza t) / msPerDay)
  pad2 datePart.2.2 ++ "/" ++ pad2 datePart.2.1 ++ "/" ++ toString datePart.1

/-- Embeds `formatDate(dateString)` on a host whose time zone offset is `tza`. The argument is
a string, or `none` for `null` and `undefined`. The result is `none` when the string is outside
the modelled date forms. -/
def formatDate (tza : Int → Int) (dateString : Option String) : Option String :=
  match dateString with
  | none => some "N/A"
  | some s =>
      if s = "" then some "N/A"
      else (dateParse s).map (toLocaleDateStringEsAR tza)

/-! ## Class lists -/

/-- The call `classList.contains(token)`. -/
def classListContains (classList : List String) (token : String) : Bool :=
  classList.any (fun c => decide (c = token))

/-- The call `classList.add(token)`: the token is appended unless present. -/
def classListAdd (classList : List String) (token : String) : List String :=
  if classListContains classList token then classList else classList ++ [token]

/-- The call `classList.remove(token)`. -/
def classListRemove (classList : List String) (token : String) : List String :=
  classList.filter (fun c => decide (c ≠ token))

/-! ## The document click listener -/

/-- A node of the document: the class list of an element, `none` for a node without a
`classList` (the document itself, a text node). -/
structure Node where
  classList : Option (List String)

/-- The document: its nodes by identity. -/
abbrev Document := Nat → Node

/-- Embeds the listener of lines 82 to 86 for a click whose `target` is the given node: the
document afterwards, and the error thrown inside the listener, if any. -/
def onDocumentClick (target : Nat) (doc : Document) : Document × Option JsError :=
  match (doc target).classList with
  | none =>
      (doc, some (JsError.typeError "Cannot read properties of undefined (reading contains)"))
  | some classList =>
      if classListContains classList "modal" then
        (Function.update doc target ⟨some (classListRemove classList "show")⟩, none)
      else (doc, none)

/-! ## setActiveNavLink -/

/-- The components of a parsed URL. -/
structure URL where
  protocol : String
  host : String
  pathname : String
  search : String
  hash : String
deriving DecidableEq, Repr

/-- The constructor `new URL(s)`: the parsed URL, or `none` when it throws a `TypeError`. -/
abbrev UrlParser := String → Option URL

/-- An anchor matched by `.nav-links a`: its `href` property and its class list. -/
structure NavLink where
  href : String
  classList : List String
deriving DecidableEq, Repr

/-- Embeds `setActiveNavLink()`: `currentPath` is `window.location.pathname`, the list is the
result of `querySelectorAll`, visited in order. A throwing `new URL(link.href)` ends the
iteration, the links from that one on being left as they are. -/
def setActiveNavLink (parseUrl : UrlParser) (currentPath : String) :
    List NavLink → List NavLink × Option JsError
  | [] => ([], none)
  | link :: rest =>
      match parseUrl link.href with
      | none => (link :: rest, some (JsError.typeError "Invalid URL"))
      | some url =>
          let marked : NavLink :=
            if url.pathname = currentPath then
              { link with classList := classListAdd link.classList "active" }
            else { link with classList := classListRemove link.classList "active" }
          let done := setActiveNavLink parseUrl currentPath rest
          (marked :: done.1, done.2)

/-! ## Vocabulary of the statements -/

/-- Whether a node is an element whose class list holds the token. -/
def carries (doc : Document) (node : Nat) (token : String) : Bool :=
  match (doc node).classList with
  | some classList => classListContains classList token
  | none => false

/-- What is required of a navigation link after `setActiveNavLink`: it is the same anchor, it
holds the `active` token exactly when the pathname of its parsed `href` equals the current path,
and its other tokens are those it had, in the same order. -/
def MarkedFor (parseUrl : UrlParser) (currentPath : String) (before after : NavLink) : Prop :=
  after.href = before.href ∧
    ("active" ∈ after.classList ↔ (parseUrl before.href).map URL.pathname = some currentPath) ∧
    after.classList.filter (fun c => decide (c ≠ "active")) =
      before.classList.filter (fun c => decide (c ≠ "active"))

/-! ## Sample inputs -/

/-- A world whose page has an empty notification container. -/
def sampleWorld : World := ⟨⟨some [], []⟩, [], [], 0⟩

/-- A caller's options carrying one header of its own. -/
def bearerOptions : Json :=
  Json.obj [("headers", Json.obj [("Authorization", Json.str "Bearer t")])]

/-- A network that answers every request with the given response. -/
def answering (response : Response) : Network := fun _ _ => .ok response

/-- A network on which every request fails at transport level. -/
def unreachable : Network := fun _ _ => .error (JsError.typeError "Failed to fetch")

/-- An HTML answer with status 404. -/
def htmlNotFound : Response := ⟨some "text/html", 404, .ok Json.null⟩

/-- A JSON answer with the given status and parsed body. -/
def jsonAnswer (status : Nat) (body : Json) : Response :=
  ⟨some "application/json", status, .ok body⟩

/-- The host time zone of Argentina: three hours behind UTC at every instant. -/
def argentinaTime : Int → Int := fun _ => -10800000

/-- A URL parser that agrees with `new URL` on the two strings used below: the empty string, the
`href` of an anchor without that attribute, does not parse; the other has pathname `/clases`. -/
def sampleParser : UrlParser := fun s =>
  if s = "http://localhost:8080/clases?dia=lunes#tarde" then
    some ⟨"http:", "localhost:8080", "/clases", "?dia=lunes", "#tarde"⟩
  else none

/-- Navigation links: an anchor without `href`, then an anchor marked active from before. -/
def sampleLinks : List NavLink :=
  [⟨"", []⟩, ⟨"http://localhost:8080/clases?dia=lunes#tarde", ["active"]⟩]

/-- A document with an open modal as node 0 and, as every other node, a plain element of its
content. -/
def sampleDocument : Document := fun node =>
  if node = 0 then ⟨some ["modal", "show"]⟩ else ⟨some ["modal-content"]⟩

/-! ## Properties of the value model -/

theorem lookupMember_fold (key : String) (members : List (String × Json)) (acc : JsVal) :
    members.foldl (fun acc p => if p.1 = key then some p.2 else acc) acc =
      match lookupMember members key with
      | some v => some v
      | none => acc := by
  induction members generalizing acc with
  | nil => simp [lookupMember]
  | cons p rest ih =>
      simp only [lookupMember, List.foldl_cons] at ih ⊢
      rw [ih, ih (if p.1 = key then some p.2 else none)]
      by_cases hk : p.1 = key <;> simp [hk] <;> split <;> simp_all

theorem lookupMember_append (key : String) (a b : List (String × Json)) :
    lookupMember (a ++ b) key =
      match lookupMember b key with
      | some v => some v
      | none => lookupMember a key := by
  unfold lookupMember
  rw [List.foldl_append, lookupMember_fold]
  rfl

theorem lookupMember_absent (key : String) (members : List (String × Json))
    (h : members.any (fun p => decide (p.1 = key)) = false) :
    lookupMember members key = none := by
  induction members with
  | nil => rfl
  | cons p rest ih =>
      simp only [List.any_cons, Bool.or_eq_false_iff, decide_eq_false_iff_not] at h
      have hcons : lookupMember (p :: rest) key = lookupMember ([p] ++ rest) key := rfl
      rw [hcons, lookupMember_append, ih h.2]
      simp [lookupMember, h.1]

theorem requestInit_headers_from_caller (members : List (String × Json)) (h : Json)
    (hh : lookupMember members "headers" = some h) :
    ∃ init, requestInit (Json.obj members) = .ok (Json.obj init) ∧
      lookupMember init "headers" = some h := by
  refine ⟨[("headers", Json.obj
      ([("Content-Type", Json.str "application/json"), ("Cache-Control", Json.str "no-cache")]
        ++ spreadMembers (some h)))] ++ members, ?_, ?_⟩
  · simp only [requestInit, getProp, hh, spreadMembers]
  · rw [lookupMember_append]
    simp [hh]

/-! ## Properties of the request gateway -/

theorem issueFetch_keeps (net : Network) (url : String) (options : JsVal) (w : World) :
    (issueFetch net url options w).2.page = w.page ∧
      (issueFetch net url options w).2.console = w.console ∧
      (issueFetch net url options w).2.bodyReads = w.bodyReads := by
  unfold issueFetch
  split <;> simp

theorem apiRequestTry_keeps (net : Network) (url : String) (options : JsVal) (w : World) :
    (apiRequestTry net url options w).2.page = w.page ∧
      (apiRequestTry net url options w).2.console = w.console := by
  have hk := issueFetch_keeps net url options w
  unfold apiRequestTry
  split
  · next e w1 heq => rw [heq] at hk; exact ⟨hk.1, hk.2.1⟩
  · next response w1 heq =>
      rw [heq] at hk
      split
      · exact ⟨hk.1, hk.2.1⟩
      · split <;> split <;> exact ⟨hk.1, hk.2.1⟩

theorem apiRequest_of_try_error (net : Network) (url : String) (options : JsVal) (w : World)
    (e : JsError) (children : List Element)
    (hfail : (apiRequestTry net url options w).1 = .error e)
    (hcontainer : w.page.container = some children) :
    (apiRequest net url options w).1 = .error e ∧
      (apiRequest net url options w).2.page =
        ⟨some (⟨"div", "alert alert-error", e.message⟩ :: children),
          w.page.timers ++ [⟨5000, ⟨"div", "alert alert-error", e.message⟩⟩]⟩ ∧
      (apiRequest net url options w).2.console = w.console ++ [("Error en API:", e)] ∧
      (apiRequest net url options w).2.bodyReads =
        (apiRequestTry net url options w).2.bodyReads := by
  have hk := apiRequestTry_keeps net url options w
  unfold apiRequest
  rcases htry : apiRequestTry net url options w with ⟨r, w1⟩
  rw [htry] at hfail hk
  simp only at hfail hk
  subst hfail
  simp [showAlert, hk.1, hk.2, hcontainer]

theorem apiRequestTry_of_response (net : Network) (url : String) (options : JsVal) (w : World)
    (response : Response) (hfetch : (issueFetch net url options w).1 = .ok response) :
    (apiRequestTry net url options w).1 =
      if notJson response.contentType then .error (JsError.mkError (nonJsonMessage url))
      else if !response.ok then
        (match response.body with
          | .error e => .error e
          | .ok error => .error (failingStatusError error))
      else response.body := by
  unfold apiRequestTry
  rcases hf : issueFetch net url options w with ⟨r, w1⟩
  rw [hf] at hfetch
  simp only at hfetch
  subst hfetch
  simp only
  split
  · rfl
  · split
    · split <;> simp_all
    · split <;> simp_all

theorem apiRequestTry_bodyReads_of_nonJson (net : Network) (url : String) (options : JsVal)
    (w : World) (response : Response)
    (hfetch : (issueFetch net url options w).1 = .ok response)
    (hct : notJson response.contentType = true) :
    (apiRequestTry net url options w).2.bodyReads = w.bodyReads := by
  have hk := issueFetch_keeps net url options w
  unfold apiRequestTry
  rcases hf : issueFetch net url options w with ⟨r, w1⟩
  rw [hf] at hfetch hk
  simp only at hfetch hk
  subst hfetch
  simp [hct, hk.2.2]

theorem notJson_of_not_includes (contentType : Option String)
    (h : ∀ ct, contentType = some ct → jsIncludes ct "application/json" = false) :
    notJson contentType = true := by
  cases contentType with
  | none => rfl
  | some ct => simp [notJson, h ct rfl]

theorem notJson_of_includes (contentType : Option String)
    (h : ∃ ct, contentType = some ct ∧ jsIncludes ct "application/json" = true) :
    notJson contentType = false := by
  obtain ⟨ct, rfl, hinc⟩ := h
  have hne : ct ≠ "" := by
    intro h0
    rw [h0] at hinc
    exact absurd hinc (by decide)
  simp [notJson, hinc, hne]

theorem failingStatusError_message_field (x : String) (hx : x ≠ "") :
    failingStatusError (Json.obj [("message", Json.str x)]) = JsError.mkError x := by
  simp [failingStatusError, getProp, lookupMember, truthy, hx, throwNewError, jsToString]

theorem failingStatusError_nested_message (y : String) (hy : y ≠ "") :
    failingStatusError (Json.obj [("error", Json.obj [("message", Json.str y)])]) =
      JsError.mkError y := by
  simp [failingStatusError, getProp, getPropOpt, lookupMember, truthy, hy, throwNewError,
    jsToString]

theorem failingStatusError_fallback (body : Json) (hnull : body ≠ Json.null)
    (hmessage : hasField (some body) "message" = false)
    (hnested : hasField (getPropOpt (some body) "error") "message" = false) :
    failingStatusError body = JsError.mkError fallbackMessage := by
  have hthrow : throwNewError (some (Json.str fallbackMessage)) = JsError.mkError fallbackMessage := by
    simp [throwNewError, jsToString]
  cases body with
  | null => exact absurd rfl hnull
  | bool b => simp [failingStatusError, getProp, getPropOpt, truthy, hthrow]
  | num n => simp [failingStatusError, getProp, getPropOpt, truthy, hthrow]
  | str t => simp [failingStatusError, getProp, getPropOpt, truthy, hthrow]
  | arr items => simp [failingStatusError, getProp, getPropOpt, truthy, hthrow]
  | obj members =>
      have h1 : lookupMember members "message" = none :=
        lookupMember_absent "message" members (by simpa [hasField] using hmessage)
      have h2 : getPropOpt (lookupMember members "error") "message" = none := by
        simp only [getPropOpt] at hnested ⊢
        cases hinner : lookupMember members "error" with
        | none => rfl
        | some inner =>
            rw [hinner] at hnested
            cases inner with
            | obj inside => exact lookupMember_absent "message" inside (by simpa [hasField] using hnested)
            | _ => rfl
      simp [failingStatusError, getProp, h1, h2, truthy, hthrow]

theorem apiRequestTry_of_fetch_error (net : Network) (url : String) (options : JsVal) (w : World)
    (e : JsError) (hfetch : (issueFetch net url options w).1 = .error e) :
    (apiRequestTry net url options w).1 = .error e := by
  unfold apiRequestTry
  rcases hf : issueFetch net url options w with ⟨r, w1⟩
  rw [hf] at hfetch
  simp only at hfetch
  subst hfetch
  rfl

theorem apiRequestTry_of_unparsable_body (net : Network) (url : String) (options : JsVal)
    (w : World) (response : Response) (e : JsError)
    (hfetch : (issueFetch net url options w).1 = .ok response)
    (hct : notJson response.contentType = false) (hbody : response.body = .error e) :
    (apiRequestTry net url options w).1 = .error e := by
  rw [apiRequestTry_of_response net url options w response hfetch]
  simp [hct, hbody]

theorem apiRequestTry_never_ok_of_failing_status (net : Network) (url : String)
    (options : JsVal) (w : World) (response : Response)
    (hfetch : (issueFetch net url options w).1 = .ok response)
    (hok : response.ok = false) :
    ∃ e, (apiRequestTry net url options w).1 = .error e := by
  rw [apiRequestTry_of_response net url options w response hfetch]
  by_cases hct : notJson response.contentType = true
  · exact ⟨JsError.mkError (nonJsonMessage url), by simp [hct]⟩
  · cases hb : response.body with
    | error e => exact ⟨e, by simp [hct, hok, hb]⟩
    | ok body => exact ⟨failingStatusError body, by simp [hct, hok, hb]⟩

/-! ## The claims about the request gateway -/

/-- C1 (code defect): for the caller options carrying the single header `Authorization`, the init
argument recorded for the network call has as its `headers` exactly the caller's mapping, so the
default headers `Content-Type` and `Cache-Control` are not sent: the member spread from `options`
after the merged `headers` member replaces it. -/
theorem apiRequest_caller_headers_replace_defaults (net : Network) (w : World) :
    ∃ init, (issueFetch net "/api/socios" (some bearerOptions) w).2.requests =
        w.requests ++ [("/api/socios", Json.obj init)] ∧
      lookupMember init "headers" = some (Json.obj [("Authorization", Json.str "Bearer t")]) ∧
      getPropOpt (lookupMember init "headers") "Content-Type" = none ∧
      getPropOpt (lookupMember init "headers") "Cache-Control" = none := by
  refine ⟨[("headers", Json.obj
      [("Content-Type", Json.str "application/json"), ("Cache-Control", Json.str "no-cache"),
        ("Authorization", Json.str "Bearer t")]),
      ("headers", Json.obj [("Authorization", Json.str "Bearer t")])], ?_, rfl, rfl, rfl⟩
  rfl

/-- C2: when the network call settles with a response whose content type is absent or does not
include `application/json`, whatever its status, and the page has its notification container,
`apiRequest` fails with the non-JSON error, whose message contains the requested url; exactly one
element is added to the container, an alert of kind `error` carrying that message; and the body
is not read, so no status-based error is produced. -/
theorem apiRequest_nonJson_response (net : Network) (url : String) (options : JsVal) (w : World)
    (response : Response) (children : List Element)
    (hfetch : (issueFetch net url options w).1 = .ok response)
    (hct : ∀ ct, response.contentType = some ct → jsIncludes ct "application/json" = false)
    (hcontainer : w.page.container = some children) :
    (apiRequest net url options w).1 = .error (JsError.mkError (nonJsonMessage url)) ∧
      (∃ before after, (JsError.mkError (nonJsonMessage url)).message = before ++ url ++ after) ∧
      (apiRequest net url options w).2.page.container =
        some (⟨"div", "alert alert-error", nonJsonMessage url⟩ :: children) ∧
      (apiRequest net url options w).2.bodyReads = w.bodyReads := by
  have hnot := notJson_of_not_includes response.contentType hct
  have htry : (apiRequestTry net url options w).1 = .error (JsError.mkError (nonJsonMessage url)) := by
    rw [apiRequestTry_of_response net url options w response hfetch]
    simp [hnot]
  have hcatch := apiRequest_of_try_error net url options w _ children htry hcontainer
  refine ⟨hcatch.1, ⟨"El servidor no devolvió JSON para ",
    ". Verifique que la ruta de la API sea correcta.", rfl⟩, ?_, ?_⟩
  · rw [hcatch.2.1]
    rfl
  · rw [hcatch.2.2.2]
    exact apiRequestTry_bodyReads_of_nonJson net url options w response hfetch hnot

/-- Witness of C2: an HTML answer with status 404 on a page with an empty container. -/
theorem apiRequest_nonJson_response_witness :
    (apiRequest (answering htmlNotFound) "/api/socios" none sampleWorld).1 =
        .error (JsError.mkError (nonJsonMessage "/api/socios")) ∧
      (apiRequest (answering htmlNotFound) "/api/socios" none sampleWorld).2.page.container =
        some [⟨"div", "alert alert-error", nonJsonMessage "/api/socios"⟩] :=
  have h := apiRequest_nonJson_response (answering htmlNotFound) "/api/socios" none sampleWorld
    htmlNotFound [] rfl (by intro ct hct; cases hct; rfl) rfl
  ⟨h.1, h.2.2.1⟩

/-- C3, counterexample: a failing status with the JSON body whose `message` is the empty string
does not fail with an error whose message is that string; the fallback message is used. -/
theorem apiRequest_empty_message_counterexample :
    (jsonAnswer 400 (Json.obj [("message", Json.str "")])).ok = false ∧
      notJson (jsonAnswer 400 (Json.obj [("message", Json.str "")])).contentType = false ∧
      ¬ ∃ e, (apiRequest (answering (jsonAnswer 400 (Json.obj [("message", Json.str "")])))
          "/api/socios" none sampleWorld).1 = .error e ∧ e.message = "" := by
  refine ⟨rfl, rfl, ?_⟩
  rintro ⟨e, he, hm⟩
  have hrun : (apiRequest (answering (jsonAnswer 400 (Json.obj [("message", Json.str "")])))
      "/api/socios" none sampleWorld).1 = .error (JsError.mkError fallbackMessage) := rfl
  rw [hrun] at he
  cases he
  exact absurd hm (by decide)

/-- C3, amended: for every failing status and every non-empty string `x`, when the response
declares JSON, its body is the object with the single member `message` of value `x`, and the page
has its notification container, `apiRequest` fails with an error whose message is exactly `x`. -/
theorem apiRequest_failing_status_message (net : Network) (url : String) (options : JsVal)
    (w : World) (response : Response) (children : List Element) (x : String)
    (hfetch : (issueFetch net url options w).1 = .ok response)
    (hct : ∃ ct, response.contentType = some ct ∧ jsIncludes ct "application/json" = true)
    (hok : response.ok = false)
    (hbody : response.body = .ok (Json.obj [("message", Json.str x)]))
    (hx : x ≠ "")
    (hcontainer : w.page.container = some children) :
    ∃ e, (apiRequest net url options w).1 = .error e ∧ e.message = x := by
  have htry : (apiRequestTry net url options w).1 = .error (JsError.mkError x) := by
    rw [apiRequestTry_of_response net url options w response hfetch]
    simp [notJson_of_includes _ hct, hok, hbody, failingStatusError_message_field x hx]
  exact ⟨_, (apiRequest_of_try_error net url options w _ children htry hcontainer).1, rfl⟩

/-- Witness of C3 amended: status 409 with the message `Cupo completo`. -/
theorem apiRequest_failing_status_message_witness :
    ∃ e, (apiRequest (answering (jsonAnswer 409 (Json.obj [("message", Json.str "Cupo completo")])))
        "/api/reservas" none sampleWorld).1 = .error e ∧ e.message = "Cupo completo" :=
  apiRequest_failing_status_message
    (answering (jsonAnswer 409 (Json.obj [("message", Json.str "Cupo completo")])))
    "/api/reservas" none sampleWorld
    (jsonAnswer 409 (Json.obj [("message", Json.str "Cupo completo")])) [] "Cupo completo"
    rfl ⟨"application/json", rfl, by decide⟩ rfl rfl (by decide) rfl

/-- C4, counterexample: a failing status with the JSON body whose only member is `error`, an
object whose `message` is the empty string, does not fail with an error whose message is that
string; the fallback message is used. -/
theorem apiRequest_empty_nested_message_counterexample :
    (jsonAnswer 500 (Json.obj [("error", Json.obj [("message", Json.str "")])])).ok = false ∧
      hasField (some (Json.obj [("error", Json.obj [("message", Json.str "")])])) "message"
        = false ∧
      ¬ ∃ e, (apiRequest
          (answering (jsonAnswer 500 (Json.obj [("error", Json.obj [("message", Json.str "")])])))
          "/api/socios" none sampleWorld).1 = .error e ∧ e.message = "" := by
  refine ⟨rfl, rfl, ?_⟩
  rintro ⟨e, he, hm⟩
  have hrun : (apiRequest
      (answering (jsonAnswer 500 (Json.obj [("error", Json.obj [("message", Json.str "")])])))
      "/api/socios" none sampleWorld).1 = .error (JsError.mkError fallbackMessage) := rfl
  rw [hrun] at he
  cases he
  exact absurd hm (by decide)

/-- C4, amended: for every failing status and every non-empty string `y`, when the response
declares JSON, its body is the object whose only member is `error`, itself an object with the
single member `message` of value `y`, and the page has its notification container, `apiRequest`
fails with an error whose message is `y`. -/
theorem apiRequest_failing_status_nested_message (net : Network) (url : String)
    (options : JsVal) (w : World) (response : Response) (children : List Element) (y : String)
    (hfetch : (issueFetch net url options w).1 = .ok response)
    (hct : ∃ ct, response.contentType = some ct ∧ jsIncludes ct "application/json" = true)
    (hok : response.ok = false)
    (hbody : response.body = .ok (Json.obj [("error", Json.obj [("message", Json.str y)])]))
    (hy : y ≠ "")
    (hcontainer : w.page.container = some children) :
    ∃ e, (apiRequest net url options w).1 = .error e ∧ e.message = y := by
  have htry : (apiRequestTry net url options w).1 = .error (JsError.mkError y) := by
    rw [apiRequestTry_of_response net url options w response hfetch]
    simp [notJson_of_includes _ hct, hok, hbody, failingStatusError_nested_message y hy]
  exact ⟨_, (apiRequest_of_try_error net url options w _ children htry hcontainer).1, rfl⟩

/-- Witness of C4 amended: status 500 with the nested message `Sin stock`. -/
theorem apiRequest_failing_status_nested_message_witness :
    ∃ e, (apiRequest
        (answering (jsonAnswer 500 (Json.obj [("error", Json.obj [("message", Json.str "Sin stock")])])))
        "/api/pagos" none sampleWorld).1 = .error e ∧ e.message = "Sin stock" :=
  apiRequest_failing_status_nested_message
    (answering (jsonAnswer 500 (Json.obj [("error", Json.obj [("message", Json.str "Sin stock")])])))
    "/api/pagos" none sampleWorld
    (jsonAnswer 500 (Json.obj [("error", Json.obj [("message", Json.str "Sin stock")])])) []
    "Sin stock" rfl ⟨"application/json", rfl, by decide⟩ rfl rfl (by decide) rfl

/-- C5, counterexample: a failing status whose JSON body is `null`, which has neither a `message`
field nor an `error.message` field, does not fail with the fallback message: reading `message`
from `null` throws a `TypeError`, and that error is the failure. -/
theorem apiRequest_null_body_counterexample :
    (jsonAnswer 500 Json.null).ok = false ∧
      notJson (jsonAnswer 500 Json.null).contentType = false ∧
      hasField (some Json.null) "message" = false ∧
      hasField (getPropOpt (some Json.null) "error") "message" = false ∧
      ¬ ∃ e, (apiRequest (answering (jsonAnswer 500 Json.null)) "/api/socios" none
          sampleWorld).1 = .error e ∧ e.message = fallbackMessage := by
  refine ⟨rfl, rfl, rfl, rfl, ?_⟩
  rintro ⟨e, he, hm⟩
  have hrun : (apiRequest (answering (jsonAnswer 500 Json.null)) "/api/socios" none
      sampleWorld).1 =
      .error (JsError.typeError "Cannot read properties of null (reading message)") := rfl
  rw [hrun] at he
  cases he
  exact absurd hm (by decide)

/-- C5, amended: for every failing status whose response declares JSON and whose parsed body is
not JSON `null` and has neither a top-level `message` field nor an `error.message` field (a
number, a string, a boolean or an array among them, and bodies whose `error` field is `null`),
given the notification container, `apiRequest` fails with an error whose message is the fallback
`Error en la petición`. -/
theorem apiRequest_failing_status_fallback (net : Network) (url : String) (options : JsVal)
    (w : World) (response : Response) (children : List Element) (body : Json)
    (hfetch : (issueFetch net url options w).1 = .ok response)
    (hct : ∃ ct, response.contentType = some ct ∧ jsIncludes ct "application/json" = true)
    (hok : response.ok = false)
    (hbody : response.body = .ok body)
    (hnull : body ≠ Json.null)
    (hmessage : hasField (some body) "message" = false)
    (hnested : hasField (getPropOpt (some body) "error") "message" = false)
    (hcontainer : w.page.container = some children) :
    (apiRequest net url options w).1 = .error (JsError.mkError "Error en la petición") := by
  have htry : (apiRequestTry net url options w).1 = .error (JsError.mkError fallbackMessage) := by
    rw [apiRequestTry_of_response net url options w response hfetch]
    simp [notJson_of_includes _ hct, hok, hbody,
      failingStatusError_fallback body hnull hmessage hnested]
  exact (apiRequest_of_try_error net url options w _ children htry hcontainer).1

/-- Witness of C5 amended: status 503 with a body whose `error` field is `null`. -/
theorem apiRequest_failing_status_fallback_witness :
    (apiRequest (answering (jsonAnswer 503 (Json.obj [("error", Json.null)]))) "/api/clases" none
        sampleWorld).1 = .error (JsError.mkError "Error en la petición") :=
  apiRequest_failing_status_fallback
    (answering (jsonAnswer 503 (Json.obj [("error", Json.null)]))) "/api/clases" none sampleWorld
    (jsonAnswer 503 (Json.obj [("error", Json.null)])) [] (Json.obj [("error", Json.null)])
    rfl ⟨"application/json", rfl, by decide⟩ rfl rfl (by intro h; cases h) rfl rfl rfl

/-- C6: when the network call settles with a response whose content type includes
`application/json`, whose status is in the succeeding range and whose body parses to `v`,
`apiRequest` returns exactly `v`; the page (container and timers) and the console are left as
they were, so no notification is emitted. -/
theorem apiRequest_success (net : Network) (url : String) (options : JsVal) (w : World)
    (response : Response) (v : Json)
    (hfetch : (issueFetch net url options w).1 = .ok response)
    (hct : ∃ ct, response.contentType = some ct ∧ jsIncludes ct "application/json" = true)
    (hok : response.ok = true)
    (hbody : response.body = .ok v) :
    (apiRequest net url options w).1 = .ok v ∧
      (apiRequest net url options w).2.page = w.page ∧
      (apiRequest net url options w).2.console = w.console := by
  have hk := apiRequestTry_keeps net url options w
  have htry : (apiRequestTry net url options w).1 = .ok v := by
    rw [apiRequestTry_of_response net url options w response hfetch]
    simp [notJson_of_includes _ hct, hok, hbody]
  unfold apiRequest
  rcases hrun : apiRequestTry net url options w with ⟨r, w1⟩
  rw [hrun] at htry hk
  simp only at htry hk
  subst htry
  exact ⟨rfl, hk.1, hk.2⟩

/-- Witness of C6: status 200 with the body `[1, 2]`. -/
theorem apiRequest_success_witness :
    (apiRequest (answering (jsonAnswer 200 (Json.arr [Json.num 1, Json.num 2]))) "/api/socios"
        none sampleWorld).1 = .ok (Json.arr [Json.num 1, Json.num 2]) ∧
      (apiRequest (answering (jsonAnswer 200 (Json.arr [Json.num 1, Json.num 2]))) "/api/socios"
        none sampleWorld).2.page = sampleWorld.page :=
  have h := apiRequest_success (answering (jsonAnswer 200 (Json.arr [Json.num 1, Json.num 2])))
    "/api/socios" none sampleWorld (jsonAnswer 200 (Json.arr [Json.num 1, Json.num 2]))
    (Json.arr [Json.num 1, Json.num 2]) rfl ⟨"application/json", rfl, by decide⟩ rfl rfl
  ⟨h.1, h.2.1⟩

/-- C7: whenever the `try` block of `apiRequest` throws an error `e` (a transport fault, a
non-JSON response, a failing status, a body that does not parse) and the page has its notification
container, `apiRequest` fails with that same error `e` and returns no value; exactly one element
is added to the container, in first position, an alert of kind `error` whose text is the message
of `e`. -/
theorem apiRequest_failure_notifies_and_rethrows (net : Network) (url : String)
    (options : JsVal) (w : World) (e : JsError) (children : List Element)
    (hfail : (apiRequestTry net url options w).1 = .error e)
    (hcontainer : w.page.container = some children) :
    (apiRequest net url options w).1 = .error e ∧
      (∀ v, (apiRequest net url options w).1 ≠ .ok v) ∧
      (apiRequest net url options w).2.page.container =
        some (⟨"div", "alert alert-error", e.message⟩ :: children) := by
  have hcatch := apiRequest_of_try_error net url options w e children hfail hcontainer
  refine ⟨hcatch.1, ?_, ?_⟩
  · intro v hv
    rw [hcatch.1] at hv
    cases hv
  · rw [hcatch.2.1]

/-- Witness of C7: a transport fault on a page with an empty container. -/
theorem apiRequest_failure_notifies_and_rethrows_witness :
    (apiRequest unreachable "/api/socios" none sampleWorld).1 =
        .error (JsError.typeError "Failed to fetch") ∧
      (apiRequest unreachable "/api/socios" none sampleWorld).2.page.container =
        some [⟨"div", "alert alert-error", "Failed to fetch"⟩] :=
  have h := apiRequest_failure_notifies_and_rethrows unreachable "/api/socios" none sampleWorld
    (JsError.typeError "Failed to fetch") [] rfl rfl
  ⟨h.1, h.2.2⟩

/-! ## formatDate -/

/-- C8, counterexample: on a host three hours behind UTC, as in Argentina, the date-only input
`2024-03-05` is rendered as the day before, `04/03/2024`, not as `05/03/2024`. -/
theorem formatDate_west_of_utc_counterexample :
    formatDate argentinaTime (some "2024-03-05") = some "04/03/2024" ∧
      formatDate argentinaTime (some "2024-03-05") ≠ some "05/03/2024" := by
  have hrun : formatDate argentinaTime (some "2024-03-05") = some "04/03/2024" := rfl
  refine ⟨hrun, ?_⟩
  rw [hrun]
  decide

/-- C8, amended: `formatDate` of `2024-03-05` returns `05/03/2024` on every host whose time zone
offset, at midnight UTC of that day, is not negative and is less than one day. -/
theorem formatDate_east_of_utc (tza : Int → Int)
    (hlow : 0 ≤ tza (daysFromCivil 2024 3 5 * msPerDay))
    (hhigh : tza (daysFromCivil 2024 3 5 * msPerDay) < msPerDay) :
    formatDate tza (some "2024-03-05") = some "05/03/2024" := by
  have hinstant : daysFromCivil 2024 3 5 * msPerDay = 1709596800000 := by decide
  have hparse : dateParse "2024-03-05" = some 1709596800000 := by rfl
  rw [hinstant] at hlow hhigh
  have hday : (1709596800000 + tza 1709596800000) / msPerDay = 19787 := by
    unfold msPerDay at *
    omega
  have hfmt : toLocaleDateStringEsAR tza 1709596800000 = "05/03/2024" := by
    unfold toLocaleDateStringEsAR
    rw [hday]
    rfl
  have hne : ("2024-03-05" = "") = False := by decide
  simp only [formatDate, hne, if_false, hparse, Option.map_some', hfmt]

/-- Witness of C8 amended: a host at UTC. -/
theorem formatDate_east_of_utc_witness :
    formatDate (fun _ => 0) (some "2024-03-05") = some "05/03/2024" :=
  formatDate_east_of_utc (fun _ => 0) (by decide) (by decide)

/-! ## Class lists -/

theorem classListContains_iff (classList : List String) (token : String) :
    classListContains classList token = true ↔ token ∈ classList := by
  unfold classListContains
  induction classList with
  | nil => simp
  | cons c rest ih =>
      rw [List.any_cons, Bool.or_eq_true, ih, List.mem_cons, decide_eq_true_iff]
      exact or_congr_left eq_comm

theorem mem_classListAdd (classList : List String) (token : String) :
    token ∈ classListAdd classList token := by
  unfold classListAdd
  split
  · next h => exact (classListContains_iff classList token).1 h
  · simp

theorem filter_classListAdd (classList : List String) (token : String) :
    (classListAdd classList token).filter (fun c => decide (c ≠ token)) =
      classList.filter (fun c => decide (c ≠ token)) := by
  unfold classListAdd
  split
  · rfl
  · simp [List.filter_append]

theorem not_mem_classListRemove (classList : List String) (token : String) :
    token ∉ classListRemove classList token := by
  simp [classListRemove]

theorem filter_classListRemove (classList : List String) (token : String) :
    (classListRemove classList token).filter (fun c => decide (c ≠ token)) =
      classList.filter (fun c => decide (c ≠ token)) := by
  simp [classListRemove, List.filter_filter]

theorem classListContains_remove_other (classList : List String) (token other : String)
    (h : other ≠ token) :
    classListContains (classListRemove classList token) other =
      classListContains classList other := by
  rw [Bool.eq_iff_iff, classListContains_iff, classListContains_iff]
  simp [classListRemove, h]

/-! ## setActiveNavLink -/

/-- C9, counterexample: with an anchor that has no `href` ahead of it, a link marked active from
before whose pathname `/clases` differs from the current path `/socios` is still marked after
`setActiveNavLink`: `new URL` throws on the first anchor and the iteration ends there. -/
theorem setActiveNavLink_unparsable_href_counterexample :
    (setActiveNavLink sampleParser "/socios" sampleLinks).1 = sampleLinks ∧
      (setActiveNavLink sampleParser "/socios" sampleLinks).2 =
        some (JsError.typeError "Invalid URL") ∧
      ¬ List.Forall₂ (MarkedFor sampleParser "/socios") sampleLinks
          (setActiveNavLink sampleParser "/socios" sampleLinks).1 := by
  have hrun : (setActiveNavLink sampleParser "/socios" sampleLinks).1 = sampleLinks := rfl
  refine ⟨hrun, rfl, ?_⟩
  rw [hrun]
  intro hall
  simp only [sampleLinks, List.forall₂_cons] at hall
  have hactive := hall.2.1.2.1
  have hpath : (sampleParser "http://localhost:8080/clases?dia=lunes#tarde").map URL.pathname =
      some "/clases" := rfl
  rw [hpath] at hactive
  exact absurd (hactive.1 (List.mem_singleton.2 rfl)) (by decide)

/-- C9, amended: for every current path and every list of navigation links whose `href` all
parse as URLs, with any prior marking, `setActiveNavLink` completes without an error and
afterwards each link holds the `active` token if and only if the pathname of its `href` (its
query and fragment playing no part) equals the current path; links marked before that do not
match are unmarked, and the other tokens of every link are unchanged. -/
theorem setActiveNavLink_marks_matching_links (parseUrl : UrlParser) (currentPath : String)
    (links : List NavLink)
    (hparse : ∀ link ∈ links, (parseUrl link.href).isSome = true) :
    (setActiveNavLink parseUrl currentPath links).2 = none ∧
      List.Forall₂ (MarkedFor parseUrl currentPath) links
        (setActiveNavLink parseUrl currentPath links).1 := by
  induction links with
  | nil => exact ⟨rfl, List.Forall₂.nil⟩
  | cons link rest ih =>
      have hrest := ih (fun l hl => hparse l (List.mem_cons_of_mem _ hl))
      have hlink := hparse link (List.mem_cons_self _ _)
      cases hurl : parseUrl link.href with
      | none => rw [hurl] at hlink; cases hlink
      | some url =>
          simp only [setActiveNavLink, hurl]
          refine ⟨hrest.1, List.Forall₂.cons ?_ hrest.2⟩
          by_cases hpath : url.pathname = currentPath
          · simp only [hpath, if_true]
            refine ⟨rfl, ?_, filter_classListAdd _ _⟩
            simp [hurl, hpath, mem_classListAdd]
          · simp only [hpath, if_false]
            refine ⟨rfl, ?_, filter_classListRemove _ _⟩
            simp [hurl, hpath, not_mem_classListRemove]

/-- Witness of C9 amended: one link with query and fragment on the page `/clases`. -/
theorem setActiveNavLink_marks_matching_links_witness :
    (setActiveNavLink sampleParser "/clases"
        [⟨"http://localhost:8080/clases?dia=lunes#tarde", ["btn"]⟩]).2 = none ∧
      List.Forall₂ (MarkedFor sampleParser "/clases")
        [⟨"http://localhost:8080/clases?dia=lunes#tarde", ["btn"]⟩]
        (setActiveNavLink sampleParser "/clases"
          [⟨"http://localhost:8080/clases?dia=lunes#tarde", ["btn"]⟩]).1 :=
  setActiveNavLink_marks_matching_links sampleParser "/clases"
    [⟨"http://localhost:8080/clases?dia=lunes#tarde", ["btn"]⟩]
    (by intro link hlink; rw [List.mem_singleton.1 hlink]; rfl)

/-! ## The document click listener -/

/-- C10: for a click on any node, if the target carries the `modal` token then afterwards it does
not carry `show` and carries every other token exactly as before; if it does not carry `modal`
(a descendant of a modal, or a node without class list) the document is unchanged; and in either
case every node other than the target, its ancestors included, is unchanged. -/
theorem onDocumentClick_closes_only_target (target : Nat) (doc : Document) :
    (carries doc target "modal" = true →
        carries (onDocumentClick target doc).1 target "show" = false ∧
          ∀ token, token ≠ "show" →
            carries (onDocumentClick target doc).1 target token = carries doc target token) ∧
      (carries doc target "modal" = false → (onDocumentClick target doc).1 = doc) ∧
      (∀ node, node ≠ target → (onDocumentClick target doc).1 node = doc node) := by
  unfold onDocumentClick carries
  cases hcl : (doc target).classList with
  | none => simp
  | some classList =>
      by_cases hmodal : classListContains classList "modal" = true
      · simp only [hmodal, if_true, Function.update_same, true_implies]
        refine ⟨⟨?_, ?_⟩, by simp, ?_⟩
        · rw [Bool.eq_false_iff]
          intro hshow
          exact not_mem_classListRemove classList "show"
            ((classListContains_iff _ _).1 hshow)
        · intro token htoken
          exact classListContains_remove_other classList "show" token htoken
        · intro node hnode
          exact Function.update_noteq hnode _ _
      · simp [hmodal]

/-- Witness of C10: a click on the open modal itself closes it and keeps its `modal` token, and a
click on a node of its content changes nothing. -/
theorem onDocumentClick_closes_only_target_witness :
    (carries (onDocumentClick 0 sampleDocument).1 0 "show" = false ∧
        carries (onDocumentClick 0 sampleDocument).1 0 "modal" = true) ∧
      (onDocumentClick 1 sampleDocument).1 = sampleDocument :=
  have hclose := (onDocumentClick_closes_only_target 0 sampleDocument).1 rfl
  ⟨⟨hclose.1, (hclose.2 "modal" (by decide)).trans rfl⟩,
    (onDocumentClick_closes_only_target 1 sampleDocument).2.1 rfl⟩

end FitFlow
